import Mathlib

/-!
Verification of the skip-8-balls arcade physics core.

Shallow embedding of the simulation loop of `src/components/GameCanvas.tsx`
together with the target generator of `src/utils/gameUtils.ts`.  JavaScript
numbers are modelled as rationals (`ℚ`); calls to `Math.sqrt` are modelled by
passing the square root as an explicit argument constrained by `sqrtSpec`
(the unique non-negative number whose square is the radicand), so that every
definition stays executable.  `Math.random()` results are likewise passed as
explicit arguments, constrained to the interval the code draws them from.
-/

namespace SkipBalls

/-- `CANVAS_WIDTH` from `GameCanvas.tsx`. -/
def CANVAS_WIDTH : ℚ := 1200

/-- `CANVAS_HEIGHT` from `GameCanvas.tsx`. -/
def CANVAS_HEIGHT : ℚ := 600

/-- `SURFACE_Y_OFFSET` from `gameUtils.ts`. -/
def SURFACE_Y_OFFSET : ℚ := 150

/-- `POWER_SCALE` from `GameCanvas.tsx`. -/
def POWER_SCALE : ℚ := 0.15

/-- `AIR_RESISTANCE` from `gameUtils.ts`. -/
def AIR_RESISTANCE : ℚ := 0.99

/-- `GRAVITY` from `gameUtils.ts`. -/
def GRAVITY : ℚ := 0.8

/-- The water line `surfaceY = CANVAS_HEIGHT - SURFACE_Y_OFFSET` computed in
`update`. -/
def surfaceY : ℚ := CANVAS_HEIGHT - SURFACE_Y_OFFSET

/-- `sqrtSpec s x` states that `s` is the value `Math.sqrt(x)` returns on a
non-negative radicand: the unique non-negative number with `s * s = x`. -/
def sqrtSpec (s x : ℚ) : Prop := 0 ≤ s ∧ s * s = x

instance (s x : ℚ) : Decidable (sqrtSpec s x) := by
  unfold sqrtSpec; infer_instance

/-- The `GameState['status']` union of `types.ts`. -/
inductive GameMode
  | MENU
  | AIMING
  | FLYING
  | SINKING
  | GAME_OVER
  | SHOP
deriving DecidableEq

/-- The target `type` discriminator produced by `generateSurfaceNumber`. -/
inductive TargetType
  | NORMAL
  | BOOST
  | BLOCK
  | COIN
  | MULTI_HIT
  | MOVING
  | GHOST
deriving DecidableEq

/-- The mutable player record held in `playerRef`. -/
structure Player where
  x : ℚ
  y : ℚ
  vx : ℚ
  vy : ℚ
  radius : ℚ
  rotation : ℚ
  vr : ℚ
deriving DecidableEq

/-- The `PlayerStats` record of `types.ts` held in `playerStatsRef`. -/
structure PlayerStats where
  value : ℚ
  weight : ℚ
  bounciness : ℚ
  aerodynamics : ℚ
  maxPower : ℚ
deriving DecidableEq

/-- A surface target as produced by `generateSurfaceNumber` in
`gameUtils.ts` (the random string `id` is not modelled: no simulation code
reads it). -/
structure Target where
  x : ℚ
  y : ℚ
  initialY : ℚ
  value : ℚ
  weight : ℚ
  radius : ℚ
  color : String
  type : TargetType
  sunk : Bool
  hitsRequired : ℚ
  maxHits : ℚ
  isMoving : Bool
  moveSpeed : ℚ
  moveRange : ℚ
  opacity : ℚ
deriving DecidableEq

/-- The run statistics held in the `stats` React state. -/
structure Stats where
  distance : ℚ
  skips : ℚ
  score : ℚ
  currency : ℚ
  combo : ℚ
deriving DecidableEq

/-!  ## Target generation (`generateSurfaceNumber`, `gameUtils.ts`)  -/

/-- The `types` pool built at the top of `generateSurfaceNumber`: three
`NORMAL` entries plus `BOOST`/`BLOCK`/`COIN`, advanced types appended past
difficulty thresholds, and two extra `BOOST` entries below difficulty 1.5. -/
def typePool (difficultyMultiplier : ℚ) : List TargetType :=
  let types : List TargetType :=
    [.NORMAL, .NORMAL, .NORMAL, .BOOST, .BLOCK, .COIN]
  let types := if 1.2 < difficultyMultiplier then types ++ [.MOVING] else types
  let types := if 1.5 < difficultyMultiplier then types ++ [.MULTI_HIT] else types
  let types := if 2.0 < difficultyMultiplier then types ++ [.GHOST] else types
  if difficultyMultiplier < 1.5 then types ++ [.BOOST, .BOOST] else types

/-- `randomRange` from `gameUtils.ts`, with the `Math.random()` draw `r`
passed explicitly (the caller constrains `0 ≤ r < 1`). -/
def randomRange (r min max : ℚ) : ℚ := r * (max - min) + min

/-- `generateSurfaceNumber x difficultyMultiplier` from `gameUtils.ts`.
The four `Math.random()` draws are passed explicitly: `rType` selects from
the type pool, `rValue` feeds `randomRange(1, 10)`, and `rMoveSpeed` /
`rMoveRange` feed the `MOVING` parameters. -/
def generateSurfaceNumber (x difficultyMultiplier rType rValue rMoveSpeed rMoveRange : ℚ) :
    Target :=
  let types := typePool difficultyMultiplier
  let ty := types.getD (Int.toNat ⌊rType * types.length⌋) .NORMAL
  -- `let value = Math.floor(randomRange(1, 10) * difficultyMultiplier)`
  let value0 : ℤ := ⌊randomRange rValue 1 10 * difficultyMultiplier⌋
  let value : ℤ :=
    match ty with
    | .BOOST => ⌊(value0 : ℚ) * 0.5⌋
    | .BLOCK => ⌊(value0 : ℚ) * 1.5⌋
    | .COIN => 1
    | .MULTI_HIT => ⌊(value0 : ℚ) * 2⌋
    | .MOVING => ⌊(value0 : ℚ) * 1.2⌋
    | .GHOST => ⌊(value0 : ℚ) * 1.5⌋
    | .NORMAL => value0
  let weight : ℚ :=
    match ty with
    | .BLOCK => 2
    | .COIN => 0.1
    | .MULTI_HIT => 1.5
    | _ => 1
  let color : String :=
    match ty with
    | .BOOST => "#4ade80"
    | .BLOCK => "#f87171"
    | .COIN => "#fbbf24"
    | .MULTI_HIT => "#d97706"
    | .MOVING => "#c084fc"
    | .GHOST => "#22d3ee"
    | .NORMAL => "#a5b4fc"
  let hitsRequired : ℚ := match ty with | .MULTI_HIT => 3 | _ => 1
  let isMoving : Bool := match ty with | .MOVING => true | _ => false
  let moveSpeed : ℚ :=
    match ty with | .MOVING => randomRange rMoveSpeed 0.02 0.05 | _ => 0
  let moveRange : ℚ :=
    match ty with | .MOVING => randomRange rMoveRange 30 80 | _ => 0
  let opacity : ℚ := match ty with | .GHOST => 0.5 | _ => 1
  { x := x
    y := 0
    initialY := 0
    value := max 1 (value : ℚ)
    -- `radius: 35 + (value % 10)` uses the pre-`Math.max` value; the JS `%`
    -- is truncating remainder, `Int.tmod` for integral operands.
    radius := 35 + ((Int.tmod value 10 : ℤ) : ℚ)
    color := color
    type := ty
    sunk := false
    hitsRequired := hitsRequired
    maxHits := hitsRequired
    isMoving := isMoving
    moveSpeed := moveSpeed
    moveRange := moveRange
    opacity := opacity
    weight := weight }

/-!  ## Target stream maintenance (`update`, GameCanvas.tsx lines 236-248)  -/

/-- One generation-maintenance step of the surface list, run every tick in
FLYING or SINKING: read the rightmost target, append one generated target at
`rightmost.x + randomRange(50, 80)` when the rightmost is inside the
lookahead window `camera.x + CANVAS_WIDTH + 200`, then drop the leftmost
target when more than 50 are alive.  `px` is `p.x` (difficulty is
`1 + p.x / 5000`), `rGap` is the `randomRange(50, 80)` draw, and the
remaining arguments feed `generateSurfaceNumber`.  On an empty list the
original code would fault reading `rightmost.x`; the spec requires the list
to be non-empty by construction, and the theorems assume it. -/
def maintainSurface (camX px rGap rType rValue rMoveSpeed rMoveRange : ℚ)
    (targets : List Target) : List Target :=
  match targets.getLast? with
  | none => targets
  | some rightmost =>
    let targets1 :=
      if rightmost.x < camX + CANVAS_WIDTH + 200 then
        let difficulty := 1 + px / 5000
        targets ++ [generateSurfaceNumber (rightmost.x + randomRange rGap 50 80)
          difficulty rType rValue rMoveSpeed rMoveRange]
      else targets
    if 50 < targets1.length then targets1.tail else targets1

/-!  ## Target collision resolution (`update`, GameCanvas.tsx lines 278-394)  -/

/-- The four resolution paths a target hit can take. -/
inductive HitBranch
  | multiHit
  | smash
  | skip
  | sink
deriving DecidableEq

/-- Which branch the collision code of `update` takes on a hit, mirroring
its conditionals: `speed` is the `Math.sqrt(vx*vx + vy*vy)` value
(`impactVelocity`). -/
def hitBranch (ps : PlayerStats) (speed : ℚ) (num : Target) : HitBranch :=
  let impactForce := speed * ps.weight * ps.value
  let resistance := num.value * num.weight
  let isSmash := resistance * 3 < impactForce
  if resistance < impactForce ∨ num.type = .COIN then
    if num.type = .MULTI_HIT ∧ ¬ isSmash ∧ 1 < num.hitsRequired then .multiHit
    else if isSmash ∧ num.type ≠ .COIN then .smash
    else .skip
  else .sink

/-- The outcome of resolving one target hit: the player, run statistics,
struck target, and game mode after the `break`. -/
structure HitResult where
  p : Player
  stats : Stats
  target : Target
  mode : GameMode
deriving DecidableEq

/-- Resolution of one target hit in FLYING (GameCanvas.tsx lines 278-394).
`speed` is the `impactVelocity` square root; `dist` and `minDist` are the
centre distance and radius sum computed by the collision test (the caller
established `dist < minDist`).  The `hitsRequired || 0` / `|| 1` JS
defaults collapse to the stored number except at `0`, which the `|| 1`
branch maps through `1 - 1 = 0`.  In the skip branch the code divides by
`impactForce * 5`; for `impactForce = 0` (and the positive resistances the
generator produces) JS evaluates `Math.max(0.8, 1 - resistance / 0) =
Math.max(0.8, -Infinity) = 0.8`, which the guarded branch reproduces. -/
def resolveTargetHit (ps : PlayerStats) (p : Player) (speed dist minDist : ℚ)
    (num : Target) (stats : Stats) : HitResult :=
  let impactForce := speed * ps.weight * ps.value
  let resistance := num.value * num.weight
  let isSmash := resistance * 3 < impactForce
  if resistance < impactForce ∨ num.type = .COIN then
    if num.type = .MULTI_HIT ∧ ¬ isSmash ∧ 1 < num.hitsRequired then
      -- decrement, bounce off, and break without marking sunk
      { p := { p with
          vy := -|p.vy| * ps.bounciness - 2
          y := p.y - (minDist - dist) }
        stats := stats
        target := { num with
          hitsRequired := (if num.hitsRequired = 0 then 1 else num.hitsRequired) - 1 }
        mode := .FLYING }
    else
      let p1 : Player :=
        if isSmash ∧ num.type ≠ .COIN then
          -- SMASH THROUGH: scale velocities, no position correction
          { p with vx := p.vx * 0.98, vy := p.vy * 0.9 }
        else
          -- ordinary bounce: invert vy, push out of the overlap, friction
          let vy1 := -|p.vy| * ps.bounciness - 2
          let friction :=
            if impactForce = 0 then 0.8
            else max 0.8 (1 - resistance / (impactForce * 5))
          { p with
            vy := vy1
            y := p.y - (minDist - dist)
            vx := p.vx * friction
            vr := p.vx * friction * 0.1 }
      let stats1 :=
        if isSmash ∧ num.type ≠ .COIN then
          { stats with score := stats.score + 500 }
        else stats
      let newCombo := stats1.combo + 1
      let comboMultiplier := 1 + newCombo * 0.1
      let stats2 : Stats :=
        { stats1 with
          skips := stats1.skips + 1
          combo := newCombo
          score := ((⌊stats1.score + num.value * 10 * comboMultiplier⌋ : ℤ) : ℚ)
          currency := stats1.currency + (if num.type = .COIN then 10 else 1) }
      let p2 :=
        if num.type = .BOOST then { p1 with vx := p1.vx * 1.5, vy := p1.vy - 5 }
        else p1
      { p := p2, stats := stats2, target := { num with sunk := true }, mode := .FLYING }
  else
    -- SINK: hit a target but too weak
    { p := { p with vx := p.vx * 0.1, vy := 2 }
      stats := { stats with combo := 0 }
      target := num
      mode := .SINKING }

/-!  ## Water contact (`update`, GameCanvas.tsx lines 397-445)  -/

/-- The three water-contact paths, plus `wnone` when the player's lower
edge has not reached the water line. -/
inductive WaterBranch
  | wskip
  | wfloat
  | wsink
  | wnone
deriving DecidableEq

/-- Which branch the water-contact code takes, mirroring its conditionals:
the block runs only when `p.y + p.radius >= surfaceY` and no target was hit,
then branches on `speed > 5 && p.vy > 0`, else `|p.vy| < 4`, else sink. -/
def waterBranch (p : Player) (speed : ℚ) : WaterBranch :=
  if surfaceY ≤ p.y + p.radius then
    if 5 < speed ∧ 0 < p.vy then .wskip
    else if |p.vy| < 4 then .wfloat
    else .wsink
  else .wnone

/-- The outcome of the water-contact check: player, stats and mode after the
block (mode stays `FLYING` when nothing fired or the contact was a skip or a
moving float). -/
structure WaterResult where
  p : Player
  stats : Stats
  mode : GameMode
deriving DecidableEq

/-- The water-contact block of `update` (GameCanvas.tsx lines 397-445), run
in FLYING when no target was hit this tick.  `speed` is the
`Math.sqrt(vx*vx + vy*vy)` value computed at the top of the block. -/
def resolveWater (p : Player) (speed : ℚ) (stats : Stats) : WaterResult :=
  if surfaceY ≤ p.y + p.radius then
    if 5 < speed ∧ 0 < p.vy then
      -- SKIP ON WATER
      let vx := p.vx * 0.9
      { p := { p with
          y := surfaceY - p.radius
          vy := -|p.vy| * 0.6
          vx := vx
          vr := vx * 0.2 }
        stats := { stats with combo := 0 }
        mode := .FLYING }
    else if |p.vy| < 4 then
      -- SOFT LANDING (FLOAT)
      let vx := p.vx * 0.85
      let p1 := { p with
        y := surfaceY - p.radius
        vy := 0
        vx := vx
        vr := p.vr * 0.8 }
      if |vx| < 0.5 then
        { p := { p1 with vx := 0, vr := 0 }, stats := stats, mode := .AIMING }
      else
        { p := p1, stats := stats, mode := .FLYING }
    else
      -- SINK: too slow to skip, falling too fast to float
      { p := { p with vx := p.vx * 0.5, vy := 2 }
        stats := { stats with combo := 0 }
        mode := .SINKING }
  else
    { p := p, stats := stats, mode := .FLYING }

/-!  ## Launch (`handleWindowMouseUp`, GameCanvas.tsx lines 923-987)  -/

/-- What a drag release does: nothing (drag below the minimum distance),
a wrong-direction reset back to AIMING, or a launch into FLYING with the
given velocity. -/
inductive LaunchOutcome
  | noop
  | rejected
  | launched (vx vy : ℚ)
deriving DecidableEq

/-- The raw horizontal launch velocity `dx * POWER_SCALE`. -/
def launchRawVx (dx : ℚ) : ℚ := dx * POWER_SCALE

/-- The raw vertical launch velocity: `dy * POWER_SCALE`, overridden by the
minimum upward bias `-Math.abs(dx * 0.1)` when `|dy| < dx * 0.2`. -/
def launchRawVy (dx dy : ℚ) : ℚ :=
  if |dy| < dx * 0.2 then -|dx * 0.1| else dy * POWER_SCALE

/-- The launch logic of `handleWindowMouseUp` (GameCanvas.tsx lines
933-987).  `dist` is the `Math.sqrt(dx*dx + dy*dy)` drag distance and
`speed` the `Math.sqrt(vx*vx + vy*vy)` of the raw velocity, both passed
explicitly under `sqrtSpec` constraints in the theorems.  A release with
`dist < 10` is a no-op; `dx < 0` resets to AIMING; otherwise the drag is
scaled by `POWER_SCALE`, clamped to `maxPower`, multiplied by 1.2 when the
drag distance reaches 95% of the 200-pixel maximum, and the horizontal
velocity is floored at 2 before the FLYING transition. -/
def handleRelease (maxPower dx dy dist speed : ℚ) : LaunchOutcome :=
  if dist < 10 then .noop
  else if dx < 0 then .rejected
  else
    let maxDist : ℚ := 200
    let isPerfect := maxDist * 0.95 ≤ dist
    let vx := launchRawVx dx
    let vy := launchRawVy dx dy
    let v1 : ℚ × ℚ :=
      if maxPower < speed then
        let scale := maxPower / speed
        (vx * scale, vy * scale)
      else (vx, vy)
    let v2 : ℚ × ℚ := if isPerfect then (v1.1 * 1.2, v1.2 * 1.2) else v1
    let vxFinal := if v2.1 < 2 then 2 else v2.1
    .launched vxFinal v2.2

/-!  ## Resting detection (`update`, GameCanvas.tsx lines 204-221)  -/

/-- The slice of per-tick state the resting detector reads and writes: the
mode, the velocity components and the `stoppedFramesRef` counter. -/
structure RestState where
  mode : GameMode
  vx : ℚ
  vy : ℚ
  vr : ℚ
  stoppedFrames : ℕ
deriving DecidableEq

/-- One FLYING tick of the resting detector: when the speed is below 1 the
counter increments, and past 30 the mode flips to AIMING with all velocity
components zeroed and the counter reset; any faster tick resets the
counter. -/
def restCheck (s : RestState) (speed : ℚ) : RestState :=
  if speed < 1 then
    let c := s.stoppedFrames + 1
    if 30 < c then
      { mode := .AIMING, vx := 0, vy := 0, vr := 0, stoppedFrames := 0 }
    else { s with stoppedFrames := c }
  else { s with stoppedFrames := 0 }

/-- The resting detector run over the per-tick speed trace. -/
def runRest (s : RestState) (speeds : List ℚ) : RestState :=
  speeds.foldl restCheck s

/-!  ## Kinematic sanitizing (`update`, GameCanvas.tsx lines 195-199)  -/

/-- A JavaScript number as the sanitizer distinguishes it: an ordinary
(finite) value, `NaN`, or a signed infinity. -/
inductive JsVal
  | num (q : ℚ)
  | nan
  | posInf
  | negInf
deriving DecidableEq

/-- JavaScript's `isNaN` on a number. -/
def jsIsNaN : JsVal → Bool
  | .nan => true
  | _ => false

/-- Whether a JavaScript number is finite (neither `NaN` nor `±Infinity`). -/
def jsFinite : JsVal → Bool
  | .num _ => true
  | _ => false

/-- The four kinematic components the safety check inspects. -/
structure Kinematics where
  vx : JsVal
  vy : JsVal
  x : JsVal
  y : JsVal
deriving DecidableEq

/-- The per-tick safety check of `update`: each component is replaced by its
safe default exactly when `isNaN` reports true (`vx`, `vy` reset to 0, `x`
to 100, `y` to `CANVAS_HEIGHT - SURFACE_Y_OFFSET - 30`). -/
def sanitizeKinematics (k : Kinematics) : Kinematics :=
  { vx := if jsIsNaN k.vx then .num 0 else k.vx
    vy := if jsIsNaN k.vy then .num 0 else k.vy
    x := if jsIsNaN k.x then .num 100 else k.x
    y := if jsIsNaN k.y then .num (CANVAS_HEIGHT - SURFACE_Y_OFFSET - 30) else k.y }

/-!  ## Concrete fixtures

Default player stats from `playerStatsRef` and a fresh run's statistics,
plus concrete targets and players used to instantiate the theorems. -/

/-- The default upgrade stats initialised in `playerStatsRef`. -/
def defaultStats : PlayerStats where
  value := 10
  weight := 1
  bounciness := 0.7
  aerodynamics := 0.99
  maxPower := 25

/-- Run statistics at the start of a run. -/
def stats0 : Stats where
  distance := 0
  skips := 0
  score := 0
  currency := 0
  combo := 0

/-- A `BLOCK` target with value 15 and weight 2 (resistance 30). -/
def blockT : Target where
  x := 500
  y := 0
  initialY := 0
  value := 15
  weight := 2
  radius := 40
  color := "#f87171"
  type := .BLOCK
  sunk := false
  hitsRequired := 1
  maxHits := 1
  isMoving := false
  moveSpeed := 0
  moveRange := 0
  opacity := 1

/-- A `COIN` target whose resistance (100) far exceeds small impact forces. -/
def coinT : Target where
  x := 700
  y := 0
  initialY := 0
  value := 1000
  weight := 0.1
  radius := 36
  color := "#fbbf24"
  type := .COIN
  sunk := false
  hitsRequired := 1
  maxHits := 1
  isMoving := false
  moveSpeed := 0
  moveRange := 0
  opacity := 1

/-- A `BOOST` target with resistance 1, easily smashed. -/
def boostT : Target where
  x := 600
  y := 0
  initialY := 0
  value := 1
  weight := 1
  radius := 36
  color := "#4ade80"
  type := .BOOST
  sunk := false
  hitsRequired := 1
  maxHits := 1
  isMoving := false
  moveSpeed := 0
  moveRange := 0
  opacity := 1

/-- A `MULTI_HIT` target with three remaining hits (resistance 3). -/
def multiT : Target where
  x := 800
  y := 0
  initialY := 0
  value := 2
  weight := 1.5
  radius := 37
  color := "#d97706"
  type := .MULTI_HIT
  sunk := false
  hitsRequired := 3
  maxHits := 3
  isMoving := false
  moveSpeed := 0
  moveRange := 0
  opacity := 1

/-- A `MULTI_HIT` target down to its final hit. -/
def multiLastT : Target := { multiT with hitsRequired := 1 }

/-- A player moving horizontally at speed 3. -/
def pSlow : Player where
  x := 500
  y := 400
  vx := 3
  vy := 0
  radius := 25
  rotation := 0
  vr := 0

/-- A player falling straight down at speed 10. -/
def pFall : Player where
  x := 600
  y := 380
  vx := 0
  vy := 10
  radius := 25
  rotation := 0
  vr := 0

/-- A player creeping at velocity (0.3, 0.4), speed exactly 0.5. -/
def pCreep : Player where
  x := 800
  y := 400
  vx := 0.3
  vy := 0.4
  radius := 25
  rotation := 0
  vr := 0

/-- A player touching the water line with velocity (3, 4), speed exactly 5. -/
def pWater : Player where
  x := 900
  y := 425
  vx := 3
  vy := 4
  radius := 25
  rotation := 0
  vr := 0

/-!  ## C2: exact force/resistance equality resolves as a sink  -/

/-- C2: on a non-COIN target, when `impactForce` equals `resistance`
exactly, the strict `>` comparator sends resolution down the sink branch:
the mode becomes SINKING, `vx` is scaled by 0.1, `vy` is set to 2, and the
combo counter is zeroed. -/
theorem C2_equal_force_sinks (ps : PlayerStats) (p : Player)
    (speed dist minDist : ℚ) (num : Target) (stats : Stats)
    (hsp : sqrtSpec speed (p.vx ^ 2 + p.vy ^ 2))
    (hcoin : num.type ≠ .COIN)
    (heq : speed * ps.weight * ps.value = num.value * num.weight) :
    hitBranch ps speed num = .sink ∧
    (resolveTargetHit ps p speed dist minDist num stats).mode = .SINKING ∧
    (resolveTargetHit ps p speed dist minDist num stats).p.vx = p.vx * 0.1 ∧
    (resolveTargetHit ps p speed dist minDist num stats).p.vy = 2 ∧
    (resolveTargetHit ps p speed dist minDist num stats).stats.combo = 0 := by
  have hnlt : ¬ (num.value * num.weight < speed * ps.weight * ps.value) := by
    rw [heq]; exact lt_irrefl _
  have hcond : ¬ (num.value * num.weight < speed * ps.weight * ps.value ∨
      num.type = .COIN) := by
    rintro (h | h)
    · exact hnlt h
    · exact hcoin h
  refine ⟨?_, ?_, ?_, ?_, ?_⟩ <;>
    simp only [hitBranch, resolveTargetHit, if_neg hcond]

/-- Witness for C2: the spec's scenario — player value 10, weight 1 at
speed 3 against a BLOCK target of value 15, weight 2. -/
theorem C2_witness :
    sqrtSpec 3 (pSlow.vx ^ 2 + pSlow.vy ^ 2) ∧
    (resolveTargetHit defaultStats pSlow 3 50 65 blockT stats0).mode = .SINKING := by
  refine ⟨by norm_num [sqrtSpec, pSlow], ?_⟩
  exact (C2_equal_force_sinks defaultStats pSlow 3 50 65 blockT stats0
    (by norm_num [sqrtSpec, pSlow])
    (by simp [blockT])
    (by norm_num [defaultStats, blockT])).2.1

/-!  ## C3: COIN targets always resolve as a skip  -/

/-- C3: a hit on a COIN target always takes the skip path: it never smashes,
never sinks, marks the coin sunk, bounces the player, and leaves the mode
FLYING — regardless of how resistance compares to impact force. -/
theorem C3_coin_always_skips (ps : PlayerStats) (p : Player)
    (speed dist minDist : ℚ) (num : Target) (stats : Stats)
    (hsp : sqrtSpec speed (p.vx ^ 2 + p.vy ^ 2))
    (hcoin : num.type = .COIN) :
    hitBranch ps speed num = .skip ∧
    (resolveTargetHit ps p speed dist minDist num stats).mode = .FLYING ∧
    (resolveTargetHit ps p speed dist minDist num stats).target.sunk = true ∧
    (resolveTargetHit ps p speed dist minDist num stats).p.vy
      = -|p.vy| * ps.bounciness - 2 := by
  have hcond : num.value * num.weight < speed * ps.weight * ps.value ∨
      num.type = .COIN := Or.inr hcoin
  have hmh : ¬ (num.type = .MULTI_HIT ∧
      ¬ num.value * num.weight * 3 < speed * ps.weight * ps.value ∧
      1 < num.hitsRequired) := by
    rintro ⟨h, -, -⟩; rw [hcoin] at h; exact absurd h (by simp)
  have hsmash : ¬ (num.value * num.weight * 3 < speed * ps.weight * ps.value ∧
      num.type ≠ .COIN) := by
    rintro ⟨-, h⟩; exact h hcoin
  have hboost : num.type ≠ .BOOST := by rw [hcoin]; simp
  refine ⟨?_, ?_, ?_, ?_⟩ <;>
    simp only [hitBranch, resolveTargetHit, if_pos hcond, if_neg hmh, if_neg hsmash,
      if_neg hboost]

/-- Witness for C3: a COIN of resistance 100 struck at impact force 30
(player value 10, weight 1, speed 3) still skips and is sunk. -/
theorem C3_witness :
    coinT.value * coinT.weight = 100 ∧
    (3 : ℚ) * defaultStats.weight * defaultStats.value = 30 ∧
    hitBranch defaultStats 3 coinT = .skip ∧
    (resolveTargetHit defaultStats pSlow 3 50 61 coinT stats0).target.sunk = true := by
  refine ⟨by norm_num [coinT], by norm_num [defaultStats], ?_, ?_⟩
  · exact (C3_coin_always_skips defaultStats pSlow 3 50 61 coinT stats0
      (by norm_num [sqrtSpec, pSlow]) (by norm_num [coinT])).1
  · exact (C3_coin_always_skips defaultStats pSlow 3 50 61 coinT stats0
      (by norm_num [sqrtSpec, pSlow]) (by norm_num [coinT])).2.2.1

/-!  ## Smash path characterisation (shared by C1 and C10)  -/

/-- Full characterisation of the smash path of `resolveTargetHit`: under a
non-negative resistance, impact force above three times resistance on a
non-COIN target tunnels through (position untouched, `vx` scaled by 0.98 and
`vy` by 0.9, the BOOST post-effect on top for BOOST targets), adds the 500
bonus before the floored combo-scaled score, increments skips, combo and
currency, and marks the target sunk. -/
theorem resolveTargetHit_smash (ps : PlayerStats) (p : Player)
    (speed dist minDist : ℚ) (num : Target) (stats : Stats)
    (hres : 0 ≤ num.value * num.weight)
    (hsm : num.value * num.weight * 3 < speed * ps.weight * ps.value)
    (hcoin : num.type ≠ .COIN) :
    resolveTargetHit ps p speed dist minDist num stats =
      { p := if num.type = .BOOST then
               { p with vx := p.vx * 0.98 * 1.5, vy := p.vy * 0.9 - 5 }
             else { p with vx := p.vx * 0.98, vy := p.vy * 0.9 }
        stats := { stats with
          skips := stats.skips + 1
          combo := stats.combo + 1
          score := ((⌊stats.score + 500 + num.value * 10 * (1 + (stats.combo + 1) * 0.1)⌋ : ℤ) : ℚ)
          currency := stats.currency + 1 }
        target := { num with sunk := true }
        mode := .FLYING } := by
  have himp : num.value * num.weight < speed * ps.weight * ps.value := by nlinarith
  have hmh : ¬ (num.type = .MULTI_HIT ∧
      ¬ num.value * num.weight * 3 < speed * ps.weight * ps.value ∧
      1 < num.hitsRequired) := by
    rintro ⟨-, h, -⟩; exact h hsm
  have hsmash : num.value * num.weight * 3 < speed * ps.weight * ps.value ∧
      num.type ≠ .COIN := ⟨hsm, hcoin⟩
  simp only [resolveTargetHit, if_pos (Or.inl himp), if_neg hmh, if_pos hsmash,
    if_neg hcoin]

/-!  ## C1: the smash threshold  -/

/-- C1 counterexample: a BOOST target smashed by a falling player (impact
force 100 against resistance 1) satisfies every hypothesis of the claim, yet
the resulting vertical velocity is not `0.9 * vy`: the BOOST post-effect
subtracts another 5, so the velocities are not "only scaled". -/
theorem C1_counterexample :
    sqrtSpec 10 (pFall.vx ^ 2 + pFall.vy ^ 2) ∧
    boostT.type ≠ TargetType.COIN ∧
    boostT.value * boostT.weight * 3 < 10 * defaultStats.weight * defaultStats.value ∧
    (resolveTargetHit defaultStats pFall 10 50 61 boostT stats0).p.vy ≠ 0.9 * pFall.vy := by
  refine ⟨by norm_num [sqrtSpec, pFall], by simp [boostT],
    by norm_num [boostT, defaultStats], ?_⟩
  rw [resolveTargetHit_smash defaultStats pFall 10 50 61 boostT stats0
    (by norm_num [boostT]) (by norm_num [boostT, defaultStats]) (by simp [boostT])]
  norm_num [boostT, pFall]

/-- C1 (amended): with non-negative resistance, impact force strictly above
three times resistance on a non-COIN target takes the smash branch — the
position receives no overlap correction and the score gains the fixed 500
bonus inside the floored total; the velocities are exactly `vx * 0.98` and
`vy * 0.9` except on a BOOST target, where the BOOST post-effect further
multiplies `vx` by 1.5 and subtracts 5 from `vy`.  At or below three times
resistance the smash branch is never taken. -/
theorem C1_smash_threshold (ps : PlayerStats) (p : Player)
    (speed dist minDist : ℚ) (num : Target) (stats : Stats)
    (hsp : sqrtSpec speed (p.vx ^ 2 + p.vy ^ 2))
    (hres : 0 ≤ num.value * num.weight)
    (hcoin : num.type ≠ .COIN) :
    (num.value * num.weight * 3 < speed * ps.weight * ps.value →
      hitBranch ps speed num = .smash ∧
      (resolveTargetHit ps p speed dist minDist num stats).p.x = p.x ∧
      (resolveTargetHit ps p speed dist minDist num stats).p.y = p.y ∧
      (resolveTargetHit ps p speed dist minDist num stats).stats.score =
        ((⌊stats.score + 500 + num.value * 10 * (1 + (stats.combo + 1) * 0.1)⌋ : ℤ) : ℚ) ∧
      (num.type ≠ .BOOST →
        (resolveTargetHit ps p speed dist minDist num stats).p.vx = p.vx * 0.98 ∧
        (resolveTargetHit ps p speed dist minDist num stats).p.vy = p.vy * 0.9) ∧
      (num.type = .BOOST →
        (resolveTargetHit ps p speed dist minDist num stats).p.vx = p.vx * 0.98 * 1.5 ∧
        (resolveTargetHit ps p speed dist minDist num stats).p.vy = p.vy * 0.9 - 5)) ∧
    (speed * ps.weight * ps.value ≤ num.value * num.weight * 3 →
      hitBranch ps speed num ≠ .smash) := by
  constructor
  · intro hsm
    have himp : num.value * num.weight < speed * ps.weight * ps.value := by nlinarith
    have hmh : ¬ (num.type = .MULTI_HIT ∧
        ¬ num.value * num.weight * 3 < speed * ps.weight * ps.value ∧
        1 < num.hitsRequired) := by
      rintro ⟨-, h, -⟩; exact h hsm
    have hsmash : num.value * num.weight * 3 < speed * ps.weight * ps.value ∧
        num.type ≠ .COIN := ⟨hsm, hcoin⟩
    rw [resolveTargetHit_smash ps p speed dist minDist num stats hres hsm hcoin]
    refine ⟨?_, ?_, ?_, ?_, ?_, ?_⟩
    · simp only [hitBranch, if_pos (Or.inl himp), if_neg hmh, if_pos hsmash]
    · split <;> rfl
    · split <;> rfl
    · rfl
    · intro hb; rw [if_neg hb]; exact ⟨rfl, rfl⟩
    · intro hb; rw [if_pos hb]; exact ⟨rfl, rfl⟩
  · intro hle
    have hns : ¬ num.value * num.weight * 3 < speed * ps.weight * ps.value :=
      not_lt.mpr hle
    simp only [hitBranch]
    split_ifs with h1 h2 h3
    · simp
    · exact absurd h3.1 hns
    · simp
    · simp

/-- Witness for C1: the smash instance (impact force 100 vs resistance 1 on
a BOOST target) and a non-smash instance (impact force 30 vs resistance 30
on a BLOCK target) both discharge the theorem's hypotheses. -/
theorem C1_witness :
    hitBranch defaultStats 10 boostT = .smash ∧
    (resolveTargetHit defaultStats pFall 10 50 61 boostT stats0).p.y = pFall.y ∧
    hitBranch defaultStats 3 blockT ≠ .smash := by
  refine ⟨?_, ?_, ?_⟩
  · exact ((C1_smash_threshold defaultStats pFall 10 50 61 boostT stats0
      (by norm_num [sqrtSpec, pFall]) (by norm_num [boostT]) (by simp [boostT])).1
      (by norm_num [boostT, defaultStats])).1
  · exact ((C1_smash_threshold defaultStats pFall 10 50 61 boostT stats0
      (by norm_num [sqrtSpec, pFall]) (by norm_num [boostT]) (by simp [boostT])).1
      (by norm_num [boostT, defaultStats])).2.2.1
  · exact (C1_smash_threshold defaultStats pSlow 3 50 65 blockT stats0
      (by norm_num [sqrtSpec, pSlow]) (by norm_num [blockT]) (by simp [blockT])).2
      (by norm_num [blockT, defaultStats])

/-!  ## C10: a smash gets every ordinary-skip stats effect plus the bonus  -/

/-- C10: a smash resolution receives every side effect of an ordinary skip
on top of its 500 bonus: skips and combo increment, the combo-scaled score
`value * 10 * (1 + newCombo * 0.1)` is floored together with the running
total (bonus included), currency gains 1, and the target is sunk in the
same tick. -/
theorem C10_smash_side_effects (ps : PlayerStats) (p : Player)
    (speed dist minDist : ℚ) (num : Target) (stats : Stats)
    (hsp : sqrtSpec speed (p.vx ^ 2 + p.vy ^ 2))
    (hres : 0 ≤ num.value * num.weight)
    (hcoin : num.type ≠ .COIN)
    (hsm : num.value * num.weight * 3 < speed * ps.weight * ps.value) :
    (resolveTargetHit ps p speed dist minDist num stats).stats.skips = stats.skips + 1 ∧
    (resolveTargetHit ps p speed dist minDist num stats).stats.combo = stats.combo + 1 ∧
    (resolveTargetHit ps p speed dist minDist num stats).stats.score =
      ((⌊stats.score + 500 + num.value * 10 * (1 + (stats.combo + 1) * 0.1)⌋ : ℤ) : ℚ) ∧
    (resolveTargetHit ps p speed dist minDist num stats).stats.currency
      = stats.currency + 1 ∧
    (resolveTargetHit ps p speed dist minDist num stats).target.sunk = true := by
  rw [resolveTargetHit_smash ps p speed dist minDist num stats hres hsm hcoin]
  exact ⟨rfl, rfl, rfl, rfl, rfl⟩

/-- Witness for C10: the concrete smash of a BOOST target (resistance 1) at
impact force 100 increments skips and sinks the target. -/
theorem C10_witness :
    (resolveTargetHit defaultStats pFall 10 50 61 boostT stats0).stats.skips
      = stats0.skips + 1 ∧
    (resolveTargetHit defaultStats pFall 10 50 61 boostT stats0).target.sunk = true := by
  have h := C10_smash_side_effects defaultStats pFall 10 50 61 boostT stats0
    (by norm_num [sqrtSpec, pFall]) (by norm_num [boostT]) (by simp [boostT])
    (by norm_num [boostT, defaultStats])
  exact ⟨h.1, h.2.2.2.2⟩

/-!  ## C6: MULTI_HIT decrement  -/

/-- C6 counterexample: a MULTI_HIT target with 3 remaining hits struck with
impact force 100 (above its resistance 3, as the claim requires) is sunk in
one hit with `hitsRequired` untouched, because the impact also clears the
smash threshold and the smash branch bypasses the decrement. -/
theorem C6_counterexample :
    sqrtSpec 10 (pFall.vx ^ 2 + pFall.vy ^ 2) ∧
    multiT.type = TargetType.MULTI_HIT ∧
    1 < multiT.hitsRequired ∧
    multiT.value * multiT.weight < 10 * defaultStats.weight * defaultStats.value ∧
    (resolveTargetHit defaultStats pFall 10 50 62 multiT stats0).target.sunk = true ∧
    (resolveTargetHit defaultStats pFall 10 50 62 multiT stats0).target.hitsRequired
      = multiT.hitsRequired := by
  refine ⟨by norm_num [sqrtSpec, pFall], by simp [multiT], by norm_num [multiT],
    by norm_num [multiT, defaultStats], ?_, ?_⟩ <;>
    rw [resolveTargetHit_smash defaultStats pFall 10 50 62 multiT stats0
      (by norm_num [multiT]) (by norm_num [multiT, defaultStats]) (by simp [multiT])]

/-- C6 (amended): on a MULTI_HIT target, when impact force exceeds
resistance but stays within three times resistance (so the hit is not a
smash), a target with more than one remaining hit is decremented and the
player bounces off (vertical velocity inverted and scaled by bounciness
minus the extra pop, position pushed out along the overlap) without the
target being sunk; on the final hit (`hitsRequired = 1`) the ordinary skip
marks it sunk. -/
theorem C6_multi_hit (ps : PlayerStats) (p : Player)
    (speed dist minDist : ℚ) (num : Target) (stats : Stats)
    (hsp : sqrtSpec speed (p.vx ^ 2 + p.vy ^ 2))
    (htype : num.type = .MULTI_HIT)
    (hforce : num.value * num.weight < speed * ps.weight * ps.value)
    (hnosmash : speed * ps.weight * ps.value ≤ num.value * num.weight * 3) :
    (1 < num.hitsRequired →
      hitBranch ps speed num = .multiHit ∧
      (resolveTargetHit ps p speed dist minDist num stats).target.hitsRequired
        = num.hitsRequired - 1 ∧
      (resolveTargetHit ps p speed dist minDist num stats).target.sunk = num.sunk ∧
      (resolveTargetHit ps p speed dist minDist num stats).p.vy
        = -|p.vy| * ps.bounciness - 2 ∧
      (resolveTargetHit ps p speed dist minDist num stats).p.y
        = p.y - (minDist - dist) ∧
      (resolveTargetHit ps p speed dist minDist num stats).mode = .FLYING) ∧
    (num.hitsRequired = 1 →
      hitBranch ps speed num = .skip ∧
      (resolveTargetHit ps p speed dist minDist num stats).target.sunk = true) := by
  have hns : ¬ num.value * num.weight * 3 < speed * ps.weight * ps.value :=
    not_lt.mpr hnosmash
  constructor
  · intro hhits
    have hmh : num.type = .MULTI_HIT ∧
        ¬ num.value * num.weight * 3 < speed * ps.weight * ps.value ∧
        1 < num.hitsRequired := ⟨htype, hns, hhits⟩
    have hhr0 : num.hitsRequired ≠ 0 := by intro h; rw [h] at hhits; norm_num at hhits
    refine ⟨?_, ?_, ?_, ?_, ?_, ?_⟩ <;>
      simp only [hitBranch, resolveTargetHit, if_pos (Or.inl hforce), if_pos hmh,
        if_neg hhr0]
  · intro hone
    have hmh : ¬ (num.type = .MULTI_HIT ∧
        ¬ num.value * num.weight * 3 < speed * ps.weight * ps.value ∧
        1 < num.hitsRequired) := by
      rintro ⟨-, -, h⟩; rw [hone] at h; exact lt_irrefl 1 h
    have hsmash : ¬ (num.value * num.weight * 3 < speed * ps.weight * ps.value ∧
        num.type ≠ .COIN) := by
      rintro ⟨h, -⟩; exact hns h
    constructor
    · simp only [hitBranch, if_pos (Or.inl hforce), if_neg hmh, if_neg hsmash]
    · simp only [resolveTargetHit, if_pos (Or.inl hforce), if_neg hmh, if_neg hsmash]

/-- Witness for C6: a MULTI_HIT target of resistance 3 struck at impact
force 5 (player value 10, weight 1, speed 0.5) is decremented from 3 to 2
hits without sinking; the same strike on its final hit sinks it. -/
theorem C6_witness :
    (resolveTargetHit defaultStats pCreep 0.5 50 62 multiT stats0).target.hitsRequired
      = multiT.hitsRequired - 1 ∧
    (resolveTargetHit defaultStats pCreep 0.5 50 62 multiT stats0).target.sunk = false ∧
    (resolveTargetHit defaultStats pCreep 0.5 50 62 multiLastT stats0).target.sunk
      = true := by
  have h1 := C6_multi_hit defaultStats pCreep 0.5 50 62 multiT stats0
    (by norm_num [sqrtSpec, pCreep]) (by simp [multiT])
    (by norm_num [multiT, defaultStats]) (by norm_num [multiT, defaultStats])
  have h2 := C6_multi_hit defaultStats pCreep 0.5 50 62 multiLastT stats0
    (by norm_num [sqrtSpec, pCreep]) (by simp [multiLastT, multiT])
    (by norm_num [multiLastT, multiT, defaultStats])
    (by norm_num [multiLastT, multiT, defaultStats])
  refine ⟨(h1.1 (by norm_num [multiT])).2.1, ?_, (h2.2 (by norm_num [multiLastT, multiT])).2⟩
  have := (h1.1 (by norm_num [multiT])).2.2.1
  rw [this]
  simp [multiT]

/-!  ## C4: the water-skip / sink boundary  -/

/-- C4 counterexample: a player touching the water line while moving
downward at speed exactly 5 — the skip-speed threshold — does not take the
water-skip branch: the comparison `speed > 5` is strict, and since
`|vy| = 4` is not below the gentle-landing threshold either, the contact
resolves as a sink. -/
theorem C4_counterexample :
    sqrtSpec 5 (pWater.vx ^ 2 + pWater.vy ^ 2) ∧
    0 < pWater.vy ∧
    surfaceY ≤ pWater.y + pWater.radius ∧
    waterBranch pWater 5 = .wsink ∧
    (resolveWater pWater 5 stats0).mode = .SINKING := by
  refine ⟨by norm_num [sqrtSpec, pWater], by norm_num [pWater],
    by norm_num [pWater, surfaceY, CANVAS_HEIGHT, SURFACE_Y_OFFSET], ?_, ?_⟩
  · norm_num [waterBranch, pWater, surfaceY, CANVAS_HEIGHT, SURFACE_Y_OFFSET]
  · norm_num [resolveWater, pWater, surfaceY, CANVAS_HEIGHT, SURFACE_Y_OFFSET]

/-- C4 (amended): on a water contact, speed strictly above the skip-speed
threshold 5 while moving downward takes the water-skip branch (reposition to
the water line, vertical velocity inverted and scaled by the 0.6 water
restitution, horizontal drag 0.9, combo reset); speed at or below the
threshold with `|vy|` at or above the gentle-landing threshold 4 — in
particular speed exactly 5 moving downward fast — takes the sink branch. -/
theorem C4_water_boundary (p : Player) (speed : ℚ) (stats : Stats)
    (hsp : sqrtSpec speed (p.vx ^ 2 + p.vy ^ 2))
    (hcontact : surfaceY ≤ p.y + p.radius) :
    (5 < speed ∧ 0 < p.vy →
      waterBranch p speed = .wskip ∧
      resolveWater p speed stats =
        { p := { p with
            y := surfaceY - p.radius
            vy := -|p.vy| * 0.6
            vx := p.vx * 0.9
            vr := p.vx * 0.9 * 0.2 }
          stats := { stats with combo := 0 }
          mode := .FLYING }) ∧
    (speed ≤ 5 ∧ 4 ≤ |p.vy| →
      waterBranch p speed = .wsink ∧
      (resolveWater p speed stats).mode = .SINKING ∧
      (resolveWater p speed stats).p.vx = p.vx * 0.5 ∧
      (resolveWater p speed stats).p.vy = 2 ∧
      (resolveWater p speed stats).stats.combo = 0) := by
  constructor
  · intro hfast
    refine ⟨?_, ?_⟩ <;>
      simp only [waterBranch, resolveWater, if_pos hcontact, if_pos hfast]
  · intro hslow
    have h1 : ¬ (5 < speed ∧ 0 < p.vy) := by
      rintro ⟨h, -⟩; exact absurd h (not_lt.mpr hslow.1)
    have h2 : ¬ |p.vy| < 4 := not_lt.mpr hslow.2
    refine ⟨?_, ?_, ?_, ?_, ?_⟩ <;>
      simp only [waterBranch, resolveWater, if_pos hcontact, if_neg h1, if_neg h2]

/-- Witness for C4: a player at the water line with velocity (6, 8), speed
10, water-skips; the speed-5 player of the counterexample's shape with
velocity (3, 4) sinks. -/
theorem C4_witness :
    waterBranch { pWater with vx := 6, vy := 8 } 10 = .wskip ∧
    waterBranch pWater 5 = .wsink ∧
    (resolveWater pWater 5 stats0).p.vy = 2 := by
  have hfast := (C4_water_boundary { pWater with vx := 6, vy := 8 } 10 stats0
    (by norm_num [sqrtSpec, pWater])
    (by norm_num [pWater, surfaceY, CANVAS_HEIGHT, SURFACE_Y_OFFSET])).1
    (by norm_num [pWater])
  have hslow := (C4_water_boundary pWater 5 stats0
    (by norm_num [sqrtSpec, pWater])
    (by norm_num [pWater, surfaceY, CANVAS_HEIGHT, SURFACE_Y_OFFSET])).2
    (by norm_num [pWater])
  exact ⟨hfast.1, hslow.1, hslow.2.2.2.1⟩

/-!  ## C5: launch speed and the maxPower clamp  -/

/-- C5 counterexample: the drag `dx = 120`, `dy = 160` (distance 200, a
perfect pull) at default `maxPower = 25` satisfies every hypothesis of the
claim — distance over the minimum, non-inverted direction — yet launches at
velocity (18, 24), whose squared magnitude 900 exceeds `25 ^ 2 = 625`: the
1.2 perfect bonus is applied after the clamp, so the launch speed is
`1.2 * maxPower = 30 > 25`. -/
theorem C5_counterexample :
    sqrtSpec 200 ((120 : ℚ) ^ 2 + 160 ^ 2) ∧
    sqrtSpec 30 (launchRawVx 120 ^ 2 + launchRawVy 120 160 ^ 2) ∧
    (10 : ℚ) ≤ 200 ∧ (0 : ℚ) ≤ 120 ∧
    handleRelease 25 120 160 200 30 = .launched 18 24 ∧
    (25 : ℚ) ^ 2 < 18 ^ 2 + 24 ^ 2 := by
  refine ⟨by norm_num [sqrtSpec], ?_, by norm_num, by norm_num, ?_, by norm_num⟩
  · norm_num [sqrtSpec, launchRawVx, launchRawVy, POWER_SCALE]
  · norm_num [handleRelease, launchRawVx, launchRawVy, POWER_SCALE]

/-- The minimum-horizontal-velocity floor keeps a launch pair inside a
squared-magnitude bound, up to the floored component itself. -/
theorem launch_final_bound (X Y m : ℚ) (hXY : X ^ 2 + Y ^ 2 ≤ (1.2 * m) ^ 2) :
    2 ≤ (if X < 2 then (2 : ℚ) else X) ∧ Y ^ 2 ≤ (1.2 * m) ^ 2 ∧
    ((if X < 2 then (2 : ℚ) else X) ^ 2 + Y ^ 2 ≤ (1.2 * m) ^ 2 ∨
      (if X < 2 then (2 : ℚ) else X) = 2) := by
  have hY : Y ^ 2 ≤ (1.2 * m) ^ 2 := by nlinarith [sq_nonneg X]
  by_cases hf : X < 2
  · rw [if_pos hf]; exact ⟨le_refl 2, hY, Or.inr rfl⟩
  · rw [if_neg hf]; exact ⟨not_lt.mp hf, hY, Or.inl hXY⟩

/-- C5 (amended): every accepted drag release launches with horizontal
velocity at least 2 (hence positive), and the launch speed is bounded by
`1.2 * maxPower` — not by `maxPower`: the perfect bonus is applied after
the clamp — except that when the 2-floor fires, only the vertical component
obeys the bound.  In particular a perfect drag such as `dx = 150, dy = 150`
at defaults launches at `1.2 * 25 = 30`, not at most 25. -/
theorem C5_launch_clamp (maxPower dx dy dist speed vx vy : ℚ)
    (hd : sqrtSpec dist (dx ^ 2 + dy ^ 2))
    (hs : sqrtSpec speed (launchRawVx dx ^ 2 + launchRawVy dx dy ^ 2))
    (hm : 0 ≤ maxPower)
    (h : handleRelease maxPower dx dy dist speed = .launched vx vy) :
    2 ≤ vx ∧ vy ^ 2 ≤ (1.2 * maxPower) ^ 2 ∧
    (vx ^ 2 + vy ^ 2 ≤ (1.2 * maxPower) ^ 2 ∨ vx = 2) := by
  have hsp : 0 ≤ speed := hs.1
  have hS : speed * speed = launchRawVx dx ^ 2 + launchRawVy dx dy ^ 2 := hs.2
  by_cases h1 : dist < 10
  · rw [handleRelease, if_pos h1] at h; exact absurd h (by simp)
  by_cases h2 : dx < 0
  · rw [handleRelease, if_neg h1, if_pos h2] at h; exact absurd h (by simp)
  simp only [handleRelease, if_neg h1, if_neg h2] at h
  set a := launchRawVx dx with hadef
  set b := launchRawVy dx dy with hbdef
  by_cases hclamp : maxPower < speed
  · have hspos : 0 < speed := lt_of_le_of_lt hm hclamp
    have hkey : (a * (maxPower / speed)) ^ 2 + (b * (maxPower / speed)) ^ 2
        = maxPower ^ 2 := by
      field_simp
      linear_combination (-(maxPower ^ 2)) * hS
    by_cases hperfect : (200 : ℚ) * 0.95 ≤ dist
    · simp only [if_pos hclamp, if_pos hperfect, LaunchOutcome.launched.injEq] at h
      obtain ⟨hvx, hvy⟩ := h
      subst hvx hvy
      exact launch_final_bound _ _ maxPower (by nlinarith [hkey])
    · simp only [if_pos hclamp, if_neg hperfect, LaunchOutcome.launched.injEq] at h
      obtain ⟨hvx, hvy⟩ := h
      subst hvx hvy
      exact launch_final_bound _ _ maxPower (by nlinarith [hkey, sq_nonneg maxPower])
  · have hsm : speed ≤ maxPower := not_lt.mp hclamp
    have hkey : a ^ 2 + b ^ 2 ≤ maxPower ^ 2 := by nlinarith [hS]
    by_cases hperfect : (200 : ℚ) * 0.95 ≤ dist
    · simp only [if_neg hclamp, if_pos hperfect, LaunchOutcome.launched.injEq] at h
      obtain ⟨hvx, hvy⟩ := h
      subst hvx hvy
      exact launch_final_bound _ _ maxPower (by nlinarith [hkey])
    · simp only [if_neg hclamp, if_neg hperfect, LaunchOutcome.launched.injEq] at h
      obtain ⟨hvx, hvy⟩ := h
      subst hvx hvy
      exact launch_final_bound _ _ maxPower (by nlinarith [hkey, sq_nonneg maxPower])

/-- Witness for C5: the perfect 120/160 drag launches at (18, 24) with the
vertical component inside the `1.2 * 25 = 30` bound. -/
theorem C5_witness :
    (2 : ℚ) ≤ 18 ∧ (24 : ℚ) ^ 2 ≤ (1.2 * 25) ^ 2 := by
  have h := C5_launch_clamp 25 120 160 200 30 18 24
    (by norm_num [sqrtSpec])
    (by norm_num [sqrtSpec, launchRawVx, launchRawVy, POWER_SCALE])
    (by norm_num)
    (by norm_num [handleRelease, launchRawVx, launchRawVy, POWER_SCALE])
  exact ⟨h.1, h.2.1⟩

/-!  ## C7: resting detection  -/

/-- Slow ticks below the trigger point only accumulate the counter: as long
as `stoppedFrames + n ≤ 30`, `n` consecutive sub-threshold ticks leave mode
and velocity untouched. -/
theorem runRest_accumulates (vx vy vr : ℚ) (m : GameMode) :
    ∀ (n c : ℕ), c + n ≤ 30 →
      runRest ⟨m, vx, vy, vr, c⟩ (List.replicate n 0) = ⟨m, vx, vy, vr, c + n⟩ := by
  intro n
  induction n with
  | zero => intro c _; simp [runRest]
  | succ k ih =>
    intro c hc
    have h0 : (0 : ℚ) < 1 := by norm_num
    have hcc : ¬ (30 < c + 1) := by omega
    simp only [runRest, List.replicate_succ, List.foldl_cons, restCheck, if_pos h0, hcc,
      if_false, ite_false]
    have := ih (c + 1) (by omega)
    simp only [runRest] at this
    rw [this]
    congr 1
    omega

/-- C7 counterexample: 30 consecutive ticks at speed 0 — strictly below the
threshold, satisfying the claim's "at least 30 consecutive ticks" — leave
the mode FLYING with the velocity unchanged, because the counter check is
`> 30`, so the 31st slow tick is the first that can transition. -/
theorem C7_counterexample :
    (0 : ℚ) < 1 ∧
    runRest ⟨.FLYING, 0.5, 0.5, 0.5, 0⟩ (List.replicate 30 0)
      = ⟨.FLYING, 0.5, 0.5, 0.5, 30⟩ := by
  refine ⟨by norm_num, ?_⟩
  exact runRest_accumulates 0.5 0.5 0.5 .FLYING 30 0 (by omega)

/-- Any sub-threshold run of length 31 starting at counter ≤ 30 with
`stoppedFrames + length = 31` ends in the rest state. -/
theorem runRest_triggers :
    ∀ (speeds : List ℚ) (s : RestState), (∀ x ∈ speeds, x < 1) →
      s.stoppedFrames ≤ 30 → s.stoppedFrames + speeds.length = 31 →
      runRest s speeds = ⟨.AIMING, 0, 0, 0, 0⟩ := by
  intro speeds
  induction speeds with
  | nil => intro s _ hle hlen; simp at hlen; omega
  | cons a l ih =>
    intro s hall hle hlen
    have ha : a < 1 := hall a (List.mem_cons_self a l)
    simp only [runRest, List.foldl_cons]
    by_cases htr : 30 < s.stoppedFrames + 1
    · have hc30 : s.stoppedFrames = 30 := by omega
      have hl0 : l.length = 0 := by simp at hlen; omega
      have hlnil : l = [] := List.length_eq_zero.mp hl0
      simp only [restCheck, if_pos ha, if_pos htr, hlnil, List.foldl_nil]
    · have hstep : restCheck s a = { s with stoppedFrames := s.stoppedFrames + 1 } := by
        simp only [restCheck, if_pos ha, if_neg htr]
      rw [hstep]
      have := ih { s with stoppedFrames := s.stoppedFrames + 1 }
        (fun x hx => hall x (List.mem_cons_of_mem a hx))
        (by simpa using by omega)
        (by simp at hlen ⊢; omega)
      simpa [runRest] using this

/-- C7 (amended): the rest transition needs strictly more than 30
consecutive sub-threshold ticks — starting from a zero counter, the 31st
consecutive tick at speed below 1 flips the mode to AIMING and zeroes
`vx`, `vy` and `vr` exactly; and any tick at or above the threshold resets
the counter to zero without touching mode or velocity. -/
theorem C7_rest_detection :
    (∀ (s : RestState) (speeds : List ℚ), s.stoppedFrames = 0 →
      speeds.length = 31 → (∀ x ∈ speeds, x < 1) →
      runRest s speeds = ⟨.AIMING, 0, 0, 0, 0⟩) ∧
    (∀ (s : RestState) (speed : ℚ), 1 ≤ speed →
      restCheck s speed = { s with stoppedFrames := 0 }) := by
  constructor
  · intro s speeds hzero hlen hall
    exact runRest_triggers speeds s hall (by omega) (by omega)
  · intro s speed hge
    have : ¬ speed < 1 := not_lt.mpr hge
    simp only [restCheck, if_neg this]

/-- Witness for C7: 31 zero-speed ticks from a fresh FLYING state reach the
zero-velocity AIMING state, and a single tick at speed 2 resets the
counter. -/
theorem C7_witness :
    runRest ⟨.FLYING, 3, 4, 5, 0⟩ (List.replicate 31 0) = ⟨.AIMING, 0, 0, 0, 0⟩ ∧
    restCheck ⟨.FLYING, 3, 4, 5, 17⟩ 2 = ⟨.FLYING, 3, 4, 5, 0⟩ := by
  constructor
  · exact C7_rest_detection.1 ⟨.FLYING, 3, 4, 5, 0⟩ (List.replicate 31 0) rfl
      (by simp) (fun x hx => by rw [List.eq_of_mem_replicate hx]; norm_num)
  · exact C7_rest_detection.2 ⟨.FLYING, 3, 4, 5, 17⟩ 2 (by norm_num)

/-!  ## C8: the per-tick kinematic safety check  -/

/-- C8 counterexample: an infinite horizontal velocity passes the safety
check untouched — `isNaN(Infinity)` is false, so the check resets only NaN,
and the resulting `vx` is not a finite number, contradicting the claim that
every non-finite component is detected and reset within the tick. -/
theorem C8_counterexample :
    (sanitizeKinematics ⟨.posInf, .num 0, .num 100, .num 420⟩).vx = .posInf ∧
    jsFinite (sanitizeKinematics ⟨.posInf, .num 0, .num 100, .num 420⟩).vx = false := by
  constructor <;> rfl

/-- After the check a single component is never NaN. -/
theorem sanitize_component_not_nan (v : JsVal) (d : ℚ) :
    jsIsNaN (if jsIsNaN v then .num d else v) = false := by
  cases v <;> rfl

/-- A NaN component is replaced by its safe default. -/
theorem sanitize_component_resets (v : JsVal) (d : ℚ) (h : v = .nan) :
    (if jsIsNaN v then JsVal.num d else v) = .num d := by
  rw [h]; rfl

/-- A non-NaN component — finite or infinite — passes through unchanged. -/
theorem sanitize_component_keeps (v : JsVal) (d : ℚ) (h : v ≠ .nan) :
    (if jsIsNaN v then JsVal.num d else v) = v := by
  cases v <;> simp_all [jsIsNaN]

/-- C8 (amended): the safety check eliminates exactly NaN — after it no
kinematic component is NaN, a NaN component is reset to its safe default
(0 for velocities, 100 and `CANVAS_HEIGHT - SURFACE_Y_OFFSET - 30` for the
position), and every non-NaN component, including `±Infinity`, passes
through unchanged. -/
theorem C8_nan_sanitized (k : Kinematics) :
    jsIsNaN (sanitizeKinematics k).vx = false ∧
    jsIsNaN (sanitizeKinematics k).vy = false ∧
    jsIsNaN (sanitizeKinematics k).x = false ∧
    jsIsNaN (sanitizeKinematics k).y = false ∧
    (k.vx = .nan → (sanitizeKinematics k).vx = .num 0) ∧
    (k.vy = .nan → (sanitizeKinematics k).vy = .num 0) ∧
    (k.x = .nan → (sanitizeKinematics k).x = .num 100) ∧
    (k.y = .nan →
      (sanitizeKinematics k).y = .num (CANVAS_HEIGHT - SURFACE_Y_OFFSET - 30)) ∧
    (k.vx ≠ .nan → (sanitizeKinematics k).vx = k.vx) ∧
    (k.vy ≠ .nan → (sanitizeKinematics k).vy = k.vy) ∧
    (k.x ≠ .nan → (sanitizeKinematics k).x = k.x) ∧
    (k.y ≠ .nan → (sanitizeKinematics k).y = k.y) := by
  obtain ⟨vx, vy, x, y⟩ := k
  exact ⟨sanitize_component_not_nan vx 0, sanitize_component_not_nan vy 0,
    sanitize_component_not_nan x 100, sanitize_component_not_nan y _,
    fun hc => sanitize_component_resets vx 0 hc,
    fun hc => sanitize_component_resets vy 0 hc,
    fun hc => sanitize_component_resets x 100 hc,
    fun hc => sanitize_component_resets y _ hc,
    fun hc => sanitize_component_keeps vx 0 hc,
    fun hc => sanitize_component_keeps vy 0 hc,
    fun hc => sanitize_component_keeps x 100 hc,
    fun hc => sanitize_component_keeps y _ hc⟩

/-- Witness for C8: a NaN vertical velocity is reset to 0 while an infinite
horizontal velocity survives. -/
theorem C8_witness :
    (sanitizeKinematics ⟨.negInf, .nan, .num 100, .num 420⟩).vy = .num 0 ∧
    (sanitizeKinematics ⟨.negInf, .nan, .num 100, .num 420⟩).vx = .negInf := by
  have h := C8_nan_sanitized ⟨.negInf, .nan, .num 100, .num 420⟩
  exact ⟨h.2.2.2.2.2.1 rfl, h.2.2.2.2.2.2.2.2.1 (by simp)⟩

/-!  ## C9: target stream maintenance  -/

/-- A generated target is spawned at exactly the requested x. -/
theorem generateSurfaceNumber_x (x d r1 r2 r3 r4 : ℚ) :
    (generateSurfaceNumber x d r1 r2 r3 r4).x = x := rfl

/-- Dropping the head commutes with appending on a non-empty list. -/
theorem tail_append_singleton {α : Type} (l : List α) (a : α) (h : l ≠ []) :
    (l ++ [a]).tail = l.tail ++ [a] := by
  cases l with
  | nil => exact absurd rfl h
  | cons x xs => rfl

/-- A far-behind target used to violate the lookahead invariant. -/
def tFar : Target := { blockT with x := 0 }

/-- C9 counterexample: with the single live target at x = 0 and the camera
at 0, one maintenance step appends one target at x = 50 (gap draw 50) — the
new rightmost x is still far below `camera.x + CANVAS_WIDTH + 200 = 1400`,
so a single step does not restore the claimed lookahead invariant. -/
theorem C9_counterexample :
    ((maintainSurface 0 0 0 0 0 0 0 [tFar]).getLast?.map Target.x) = some 50 ∧
    (50 : ℚ) < 0 + CANVAS_WIDTH + 200 := by
  constructor
  · norm_num [maintainSurface, tFar, blockT, generateSurfaceNumber, typePool,
      randomRange, CANVAS_WIDTH]
  · norm_num [CANVAS_WIDTH]

/-- C9 (amended): a maintenance step keeps the live count at most 50 (it
adds at most one target and evicts the leftmost past the cap); when the
rightmost target already satisfies the lookahead invariant the list is
unchanged, so the invariant is preserved; when it does not, exactly one
target is appended, becoming the new rightmost at
`rightmost.x + randomRange(50, 80)` — at least 50 ahead of the old
rightmost, but a single step need not restore the invariant. -/
theorem C9_stream_maintenance (camX px rGap rType rValue rMoveSpeed rMoveRange : ℚ)
    (targets : List Target) (t : Target)
    (hlast : targets.getLast? = some t)
    (hlen : targets.length ≤ 50)
    (hgap : 0 ≤ rGap) :
    (maintainSurface camX px rGap rType rValue rMoveSpeed rMoveRange targets).length
      ≤ 50 ∧
    (camX + CANVAS_WIDTH + 200 ≤ t.x →
      maintainSurface camX px rGap rType rValue rMoveSpeed rMoveRange targets
        = targets) ∧
    (t.x < camX + CANVAS_WIDTH + 200 →
      (maintainSurface camX px rGap rType rValue rMoveSpeed rMoveRange
          targets).getLast?
        = some (generateSurfaceNumber (t.x + randomRange rGap 50 80) (1 + px / 5000)
            rType rValue rMoveSpeed rMoveRange) ∧
      t.x + 50 ≤ t.x + randomRange rGap 50 80) := by
  have hne : targets ≠ [] := by
    intro he; rw [he] at hlast; simp at hlast
  refine ⟨?_, ?_, ?_⟩
  · by_cases htrig : t.x < camX + CANVAS_WIDTH + 200
    · simp only [maintainSurface, hlast, if_pos htrig]
      by_cases hcap : 50 < (targets ++ [generateSurfaceNumber
          (t.x + randomRange rGap 50 80) (1 + px / 5000)
          rType rValue rMoveSpeed rMoveRange]).length
      · rw [if_pos hcap]
        simp only [List.length_tail, List.length_append, List.length_singleton]
        omega
      · rw [if_neg hcap]
        simp only [List.length_append, List.length_singleton] at hcap ⊢
        omega
    · have hnot2 : ¬ 50 < targets.length := not_lt.mpr hlen
      simp only [maintainSurface, hlast, if_neg htrig, if_neg hnot2]
      exact hlen
  · intro hfar
    have hnot : ¬ t.x < camX + CANVAS_WIDTH + 200 := not_lt.mpr hfar
    have hnot2 : ¬ 50 < targets.length := not_lt.mpr hlen
    simp only [maintainSurface, hlast, if_neg hnot, if_neg hnot2]
  · intro htrig
    constructor
    · simp only [maintainSurface, hlast, if_pos htrig]
      by_cases hcap : 50 < (targets ++ [generateSurfaceNumber
          (t.x + randomRange rGap 50 80) (1 + px / 5000)
          rType rValue rMoveSpeed rMoveRange]).length
      · rw [if_pos hcap, tail_append_singleton targets _ hne]
        exact List.getLast?_concat _
      · rw [if_neg hcap]
        exact List.getLast?_concat _
    · simp only [randomRange]
      nlinarith [hgap]

/-- Witness for C9: a full 50-target list whose rightmost (at x = 2000)
already satisfies the invariant for a camera at 0 is left unchanged, and
the trigger case of the far-behind single target appends at x = 50. -/
theorem C9_witness :
    maintainSurface 0 0 0 0 0 0 0 (List.replicate 49 blockT ++ [{ blockT with x := 2000 }])
      = List.replicate 49 blockT ++ [{ blockT with x := 2000 }] ∧
    (maintainSurface 0 0 0 0 0 0 0 [tFar]).length ≤ 50 := by
  constructor
  · exact (C9_stream_maintenance 0 0 0 0 0 0 0 _ { blockT with x := 2000 }
      (List.getLast?_concat _) (by simp) (le_refl 0)).2.1
      (by norm_num [CANVAS_WIDTH, blockT])
  · exact (C9_stream_maintenance 0 0 0 0 0 0 0 [tFar] tFar rfl (by simp)
      (le_refl 0)).1

end SkipBalls
